import Mathlib

/-!
Shallow embedding of the lexer of a small C-like compiler (`src/lexer.rs`).

The source text is modelled as a `List Char` indexed by the cursor `cur`.
Rust byte indices and character indices coincide on ASCII input, and the
Unicode-aware character classifiers of the Rust standard library are
modelled on their ASCII range; every input considered by the claims is
ASCII. A Rust process abort (a `todo` stub or a failed `unwrap`) is
modelled by the `Outcome.abort` constructor, kept distinct from the typed
`LexerError` results that the Rust code returns as `Err` values.
-/

/-- Rust `char::is_whitespace`, restricted to the ASCII range:
space and the control characters U+0009 through U+000D. -/
def rustIsWhitespace (c : Char) : Bool :=
  c == ' ' || (9 ≤ c.toNat && c.toNat ≤ 13)

/-- Rust `char::is_alphabetic`, restricted to the ASCII range. -/
def rustIsAlphabetic (c : Char) : Bool := c.isAlpha

/-- Rust `char::is_alphanumeric`, restricted to the ASCII range. -/
def rustIsAlphanumeric (c : Char) : Bool := c.isAlpha || c.isDigit

/-- Rust `char::is_ascii_digit`. -/
def rustIsAsciiDigit (c : Char) : Bool := c.isDigit

/-- The opening curly brace character (spelled by code point). -/
def lbrace : Char := Char.ofNat 123

/-- The closing curly brace character (spelled by code point). -/
def rbrace : Char := Char.ofNat 125

abbrev SChar := Char
abbrev SString := String
abbrev SInt := Int

/-- `enum LexerError` from `src/lexer.rs`. -/
inductive LexerError where
  | UnterminatedStringLiteral
  | UnknownEscapeSequence (s : SString)
  | UnknownToken (c : SChar)
deriving DecidableEq

/-- `enum Token` from `src/lexer.rs`. The `Float` variant carries an `f32`
in Rust; no scanning path ever constructs it and floating point is outside
this embedding, so its payload is omitted (token-kind identity, which is
all the code ever uses, is unaffected). -/
inductive Token where
  | EOF
  | ID (text : SString)
  | Int (value : SInt)
  | Float
  | Char (value : SChar)
  | String (value : SString)
  | Plus
  | Minus
  | Multiply
  | Divide
  | Mod
  | And
  | Or
  | Xor
  | ShiftLeft
  | ShiftRight
  | Equal
  | EqualEqual
  | NotEqual
  | Less
  | LessEqual
  | Greater
  | GreaterEqual
  | AndAnd
  | OrOr
  | PlusPlus
  | MinusMinus
  | PlusEqual
  | MinusEqual
  | MultiplyEqual
  | DivideEqual
  | ModEqual
  | OrEqual
  | XorEqual
  | ShiftLeftEqual
  | ShiftRightEqual
  | Arrow
  | OParen
  | CParen
  | OCurly
  | CCurly
  | Comma
  | SemiColon
deriving DecidableEq

/-- `std::mem::discriminant` for `Token`: the constructor tag, ignoring
any carried payload. -/
def Token.discr : Token → Nat
  | .EOF => 0
  | .ID _ => 1
  | .Int _ => 2
  | .Float => 3
  | .Char _ => 4
  | .String _ => 5
  | .Plus => 6
  | .Minus => 7
  | .Multiply => 8
  | .Divide => 9
  | .Mod => 10
  | .And => 11
  | .Or => 12
  | .Xor => 13
  | .ShiftLeft => 14
  | .ShiftRight => 15
  | .Equal => 16
  | .EqualEqual => 17
  | .NotEqual => 18
  | .Less => 19
  | .LessEqual => 20
  | .Greater => 21
  | .GreaterEqual => 22
  | .AndAnd => 23
  | .OrOr => 24
  | .PlusPlus => 25
  | .MinusMinus => 26
  | .PlusEqual => 27
  | .MinusEqual => 28
  | .MultiplyEqual => 29
  | .DivideEqual => 30
  | .ModEqual => 31
  | .OrEqual => 32
  | .XorEqual => 33
  | .ShiftLeftEqual => 34
  | .ShiftRightEqual => 35
  | .Arrow => 36
  | .OParen => 37
  | .CParen => 38
  | .OCurly => 39
  | .CCurly => 40
  | .Comma => 41
  | .SemiColon => 42

/-- `impl PartialEq for Token`: equality of `mem::discriminant` values,
so payloads are ignored. -/
def tokenEq (a b : Token) : Bool := a.discr == b.discr

/-- Result of a scanning operation: an ordinary value, a typed lexer
error (Rust `Err`), or a process abort (Rust `todo!` / failed `unwrap`). -/
inductive Outcome (α : Type) where
  | ok (a : α)
  | err (e : LexerError)
  | abort (msg : SString)
deriving DecidableEq

/-- `struct Location` from `src/lexer.rs`. -/
structure Location where
  filepath : SString
  row : Nat
  col : Nat
deriving DecidableEq

/-- `struct Lexer` from `src/lexer.rs`. -/
structure Lexer where
  source : List SChar
  filepath : SString
  cur : Nat
  row : Nat
  bol : Nat
deriving DecidableEq

/-- `Lexer::new`. -/
def Lexer.new (source : List SChar) (filepath : SString) : Lexer :=
  { source := source, filepath := filepath, cur := 0, row := 0, bol := 0 }

/-- `Lexer::is_empty`: `self.cur >= self.source.len()`. -/
def Lexer.isEmpty (l : Lexer) : Bool := decide (l.source.length ≤ l.cur)

/-- `Lexer::get_char`: `self.source.chars().nth(self.cur)`. -/
def Lexer.getChar (l : Lexer) : Option SChar := l.source.get? l.cur

/-- `Lexer::chop_char`. The Rust guard `if !self.is_empty()` followed by
`get_char().unwrap()` is rendered as a match on `getChar`, which is `none`
exactly when `is_empty` holds. After advancing, a newline records the new
cursor as the beginning of line and bumps `row`. -/
def Lexer.chopChar (l : Lexer) : Lexer :=
  match l.getChar with
  | some c =>
    if c == '\n' then { l with cur := l.cur + 1, bol := l.cur + 1, row := l.row + 1 }
    else { l with cur := l.cur + 1 }
  | none => l

/-- `Lexer::consume_while`, with explicit fuel in place of the Rust
`while` loop. Every iteration advances `cur` by one, so starting with
fuel `source.length - cur` the fuel can reach zero only at end of input,
where the loop guard fails anyway: the fuel never cuts the loop short. -/
def consumeWhileFuel : Nat → (Char → Bool) → Lexer → Lexer
  | 0, _, l => l
  | fuel + 1, p, l =>
    match l.getChar with
    | some c => if p c then consumeWhileFuel fuel p l.chopChar else l
    | none => l

/-- `Lexer::consume_while` entry point. -/
def Lexer.consumeWhile (l : Lexer) (p : Char → Bool) : Lexer :=
  consumeWhileFuel (l.source.length - l.cur) p l

/-- `Lexer::trim_left`: skip a maximal run of whitespace. The Rust loop
body is character-for-character the `consume_while` loop applied to
`is_whitespace`. -/
def Lexer.trimLeft (l : Lexer) : Lexer :=
  l.consumeWhile rustIsWhitespace

/-- `Lexer::get_location`: column is `self.cur - self.bol` (`usize`
subtraction; the scanning invariant `bol <= cur` keeps it exact). -/
def getLocation (l : Lexer) : Location :=
  { filepath := l.filepath, row := l.row, col := l.cur - l.bol }

/-- `Lexer::lex_id`: consume alphanumerics and underscores, return the
matched span `source[start..cur]`. -/
def lexId (l : Lexer) : Outcome Token × Lexer :=
  let start := l.cur
  let l2 := l.consumeWhile (fun c => rustIsAlphanumeric c || c == '_')
  (.ok (.ID (String.mk ((l2.source.drop start).take (l2.cur - start)))), l2)

/-- Decimal value of a digit run, as `str::parse` accumulates it. -/
def digitsToNat (cs : List SChar) : Nat :=
  cs.foldl (fun acc c => acc * 10 + (c.toNat - 48)) 0

/-- Rust `str::parse::<i32>` on the texts `lex_number` produces
(runs of ASCII digits, no sign): it succeeds exactly when the text is a
nonempty digit run whose value fits in `i32`, i.e. is at most
2147483647. -/
def parseI32 (cs : List SChar) : Option SInt :=
  if cs.isEmpty then none
  else if cs.all rustIsAsciiDigit then
    if digitsToNat cs ≤ 2147483647 then some (Int.ofNat (digitsToNat cs)) else none
  else none

/-- `Lexer::lex_number`: consume a maximal digit run and parse it;
the Rust code calls `.parse().unwrap()`, so a failing parse aborts the
process instead of returning a typed error. -/
def lexNumber (l : Lexer) : Outcome Token × Lexer :=
  let start := l.cur
  let l2 := l.consumeWhile rustIsAsciiDigit
  match parseI32 ((l2.source.drop start).take (l2.cur - start)) with
  | some v => (.ok (.Int v), l2)
  | none => (.abort "lex_number: parse unwrap failed", l2)

/-- `Lexer::lex_char`: the Rust body is the unconditional abort
`todo!("lex_char")`. -/
def lexChar (l : Lexer) : Outcome Token × Lexer :=
  (.abort "lex_char: todo", l)

/-- The `match` table inside `Lexer::lex_escape_sequence`, mapping the
character after a backslash to its decoded value; `none` is the
fall-through arm that reports an unknown escape. -/
def escapeTable (c : SChar) : Option SChar :=
  if c == 'a' then some (Char.ofNat 7)
  else if c == 'b' then some (Char.ofNat 8)
  else if c == 'e' then some (Char.ofNat 27)
  else if c == 'f' then some (Char.ofNat 12)
  else if c == 'v' then some (Char.ofNat 11)
  else if c == '?' then some '?'
  else if c == 'n' then some '\n'
  else if c == 'r' then some '\r'
  else if c == 't' then some '\t'
  else if c == '\'' then some '\''
  else if c == '"' then some '"'
  else if c == '\\' then some '\\'
  else none

/-- `Lexer::lex_escape_sequence`: reads the character under the cursor
(`get_char().unwrap()`, an abort when empty — its caller checks first),
decodes it through the table, and on an unknown character returns the
error carrying `format!("\\{}", c)`, the two-character text. The Rust
method takes `&mut self` but never mutates, so no state is returned. -/
def lexEscapeSequence (l : Lexer) : Outcome SChar :=
  match l.getChar with
  | none => .abort "lex_escape_sequence: get_char unwrap on empty input"
  | some c =>
    match escapeTable c with
    | some r => .ok r
    | none => .err (.UnknownEscapeSequence (String.mk ['\\', c]))

/-- The `while` loop of `Lexer::lex_string`, with explicit fuel. Each
iteration advances `cur` by at least one, so starting from fuel
`source.length - cur` the fuel reaches zero only when the cursor is at
end of input — where the loop exits with `UnterminatedStringLiteral`
anyway, which is also what the fuel-zero branch returns. -/
def lexStringLoopFuel : Nat → List SChar → Lexer → Outcome Token × Lexer
  | 0, _, l => (.err .UnterminatedStringLiteral, l)
  | fuel + 1, acc, l =>
    match l.getChar with
    | none => (.err .UnterminatedStringLiteral, l)
    | some ch =>
      if ch == '"' then (.ok (.String (String.mk acc)), l.chopChar)
      else if ch == '\\' then
        let l1 := l.chopChar
        if l1.isEmpty then (.err .UnterminatedStringLiteral, l1)
        else
          match lexEscapeSequence l1 with
          | .ok r => lexStringLoopFuel fuel (acc ++ [r]) l1.chopChar
          | .err e => (.err e, l1)
          | .abort m => (.abort m, l1)
      else lexStringLoopFuel fuel (acc ++ [ch]) l.chopChar

/-- `Lexer::lex_string`: skip the opening quote, then run the scanning
loop. -/
def lexString (l : Lexer) : Outcome Token × Lexer :=
  let l1 := l.chopChar
  lexStringLoopFuel (l1.source.length - l1.cur) [] l1

/-- `Lexer::lex_operator_or_separator`: read and consume the current
character, then classify. Only the six separators and `=` are live; the
general operator table is commented out in the source, so every other
character falls through to `UnknownToken`. In the `=` arm the lookahead
is read with `get_char` but never chopped — also in the `==` case. -/
def lexOperatorOrSeparator (l : Lexer) : Outcome Token × Lexer :=
  match l.getChar with
  | none => (.abort "lex_operator_or_separator: get_char unwrap on empty input", l)
  | some curChar =>
    let l1 := l.chopChar
    if curChar == '(' then (.ok .OParen, l1)
    else if curChar == ')' then (.ok .CParen, l1)
    else if curChar == lbrace then (.ok .OCurly, l1)
    else if curChar == rbrace then (.ok .CCurly, l1)
    else if curChar == ';' then (.ok .SemiColon, l1)
    else if curChar == ',' then (.ok .Comma, l1)
    else if curChar == '=' then
      if l1.isEmpty then (.ok .Equal, l1)
      else
        match l1.getChar with
        | none => (.abort "lex_operator_or_separator: get_char unwrap", l1)
        | some c2 =>
          if rustIsWhitespace c2 || rustIsAlphanumeric c2 then (.ok .Equal, l1)
          else if c2 == '=' then (.ok .EqualEqual, l1)
          else (.err (.UnknownToken c2), l1)
    else (.err (.UnknownToken curChar), l1)

/-- `Lexer::get_token`: trim whitespace, report end of input, otherwise
dispatch on the first remaining character. -/
def getToken (l : Lexer) : Outcome Token × Lexer :=
  let l0 := l.trimLeft
  if l0.isEmpty then (.ok .EOF, l0)
  else
    match l0.getChar with
    | none => (.abort "get_token: get_char unwrap on empty input", l0)
    | some c =>
      if rustIsAlphabetic c || c == '_' then lexId l0
      else if rustIsAsciiDigit c then lexNumber l0
      else if c == '\'' then lexChar l0
      else if c == '"' then lexString l0
      else lexOperatorOrSeparator l0

/-- `Lexer::expect_token`: pull one token; on success compare kinds with
the payload-ignoring `PartialEq` and wrap the match result; errors (and,
implicitly in Rust, aborts) propagate. -/
def expectToken (l : Lexer) (expected : Token) : Outcome (Option Token) × Lexer :=
  match getToken l with
  | (.ok t, l2) => (.ok (if tokenEq t expected then some t else none), l2)
  | (.err e, l2) => (.err e, l2)
  | (.abort m, l2) => (.abort m, l2)

/-- The scanning-state invariant of the specification:
`0 <= bol <= cur <= length(source)` (the lower bound is inherent to
`Nat`). -/
def ScanInv (l : Lexer) : Prop :=
  l.bol ≤ l.cur ∧ l.cur ≤ l.source.length

/-- First two token results when scanning `s` from a fresh lexer. -/
def tokens2 (s : List SChar) : Outcome Token × Outcome Token :=
  let r1 := getToken (Lexer.new s "input")
  (r1.1, (getToken r1.2).1)

/-- Hypothesis of claim C5, from its wording: walking the characters
that follow the opening quote, no unescaped closing quote occurs before
end of input (a character after a backslash is escaped and skipped). -/
def noUnescapedCloseBefore : List SChar → Bool
  | [] => true
  | c :: rest =>
    if c == '"' then false
    else if c == '\\' then
      match rest with
      | [] => true
      | _ :: rest2 => noUnescapedCloseBefore rest2
    else noUnescapedCloseBefore rest

/-- Every backslash in the string body is either at end of input or
followed by a character the escape table accepts. -/
def allEscapesValid : List SChar → Bool
  | [] => true
  | c :: rest =>
    if c == '\\' then
      match rest with
      | [] => true
      | c2 :: rest2 => (escapeTable c2).isSome && allEscapesValid rest2
    else allEscapesValid rest

/-! ## Basic facts about the cursor primitives -/

theorem getChar_lt_length {l : Lexer} {c : SChar} (h : l.getChar = some c) :
    l.cur < l.source.length :=
  (List.get?_eq_some.mp h).1

theorem getChar_some_drop {l : Lexer} {c : SChar} (h : l.getChar = some c) :
    l.source.drop l.cur = c :: l.source.drop (l.cur + 1) := by
  obtain ⟨hlt, hget⟩ := List.get?_eq_some.mp h
  rw [List.drop_eq_getElem_cons hlt]
  simp [List.get] at hget
  rw [hget]

theorem chopChar_source (l : Lexer) : l.chopChar.source = l.source := by
  unfold Lexer.chopChar
  cases h : l.getChar with
  | none => rfl
  | some c =>
    dsimp only
    split <;> rfl

theorem chopChar_filepath (l : Lexer) : l.chopChar.filepath = l.filepath := by
  unfold Lexer.chopChar
  cases h : l.getChar with
  | none => rfl
  | some c =>
    dsimp only
    split <;> rfl

theorem chopChar_cur {l : Lexer} {c : SChar} (h : l.getChar = some c) :
    l.chopChar.cur = l.cur + 1 := by
  unfold Lexer.chopChar
  rw [h]
  dsimp only
  split <;> rfl

theorem chopChar_of_none {l : Lexer} (h : l.getChar = none) : l.chopChar = l := by
  unfold Lexer.chopChar
  rw [h]

theorem chopChar_not_newline {l : Lexer} {c : SChar} (h : l.getChar = some c)
    (hn : (c == '\n') = false) : l.chopChar = { l with cur := l.cur + 1 } := by
  unfold Lexer.chopChar
  rw [h]
  simp [hn]

theorem chopChar_newline {l : Lexer} (h : l.getChar = some '\n') :
    l.chopChar = { l with cur := l.cur + 1, bol := l.cur + 1, row := l.row + 1 } := by
  unfold Lexer.chopChar
  rw [h]
  simp

theorem isEmpty_false_of_getChar {l : Lexer} {c : SChar} (h : l.getChar = some c) :
    l.isEmpty = false := by
  have := getChar_lt_length h
  simp [Lexer.isEmpty]
  omega

theorem isEmpty_true_of_none {l : Lexer} (h : l.getChar = none) :
    l.isEmpty = true := by
  have := List.get?_eq_none.mp h
  simp [Lexer.isEmpty]
  omega

theorem scanInv_chopChar {l : Lexer} (h : ScanInv l) : ScanInv l.chopChar := by
  obtain ⟨h1, h2⟩ := h
  unfold Lexer.chopChar
  cases hg : l.getChar with
  | none => exact ⟨h1, h2⟩
  | some c =>
    have := getChar_lt_length hg
    dsimp only
    split <;> refine ⟨?_, ?_⟩ <;> simp <;> omega

theorem ne_newline_of_not_ws {c : SChar} (h : rustIsWhitespace c = false) :
    (c == '\n') = false := by
  cases hc : c == '\n' with
  | false => rfl
  | true =>
    rw [show c = '\n' from by simpa using hc] at h
    exact absurd h (by decide)

/-! ## Reduction lemmas for whole-call reasoning -/

theorem trimLeft_of_head {l : Lexer} {c : SChar} (h : l.getChar = some c)
    (hw : rustIsWhitespace c = false) : l.trimLeft = l := by
  unfold Lexer.trimLeft Lexer.consumeWhile
  cases hf : l.source.length - l.cur with
  | zero => rfl
  | succ n => simp [consumeWhileFuel, h, hw]

theorem getToken_head {l : Lexer} {c : SChar} (h : l.getChar = some c)
    (hw : rustIsWhitespace c = false) :
    getToken l =
      if rustIsAlphabetic c || c == '_' then lexId l
      else if rustIsAsciiDigit c then lexNumber l
      else if c == '\'' then lexChar l
      else if c == '"' then lexString l
      else lexOperatorOrSeparator l := by
  unfold getToken
  rw [trimLeft_of_head h hw]
  simp [isEmpty_false_of_getChar h, h]

theorem lexOp_fallback {l : Lexer} {c : SChar} (h : l.getChar = some c)
    (h1 : c ≠ '(') (h2 : c ≠ ')') (h3 : c ≠ lbrace) (h4 : c ≠ rbrace)
    (h5 : c ≠ ';') (h6 : c ≠ ',') (h7 : c ≠ '=') :
    lexOperatorOrSeparator l = (.err (.UnknownToken c), l.chopChar) := by
  unfold lexOperatorOrSeparator
  rw [h]
  simp [h1, h2, h3, h4, h5, h6, h7]

theorem lexOp_equal {l : Lexer} (h : l.getChar = some '=') :
    lexOperatorOrSeparator l =
      (if l.chopChar.isEmpty then (.ok .Equal, l.chopChar)
       else
         match l.chopChar.getChar with
         | none => (.abort "lex_operator_or_separator: get_char unwrap", l.chopChar)
         | some c2 =>
           if rustIsWhitespace c2 || rustIsAlphanumeric c2 then (.ok .Equal, l.chopChar)
           else if c2 == '=' then (.ok .EqualEqual, l.chopChar)
           else (.err (.UnknownToken c2), l.chopChar)) := by
  unfold lexOperatorOrSeparator
  rw [h]
  simp [show ('=' : Char) ≠ lbrace from by decide, show ('=' : Char) ≠ rbrace from by decide]

/-! ## Invariant preservation through every scanning routine -/

theorem scanInv_consumeWhileFuel (fuel : Nat) (p : Char → Bool) :
    ∀ l : Lexer, ScanInv l → ScanInv (consumeWhileFuel fuel p l) := by
  induction fuel with
  | zero => intro l h; exact h
  | succ n ih =>
    intro l h
    unfold consumeWhileFuel
    cases hg : l.getChar with
    | none => exact h
    | some c =>
      dsimp only
      split
      · exact ih _ (scanInv_chopChar h)
      · exact h

theorem scanInv_consumeWhile {l : Lexer} (p : Char → Bool) (h : ScanInv l) :
    ScanInv (l.consumeWhile p) :=
  scanInv_consumeWhileFuel _ p l h

theorem scanInv_trimLeft {l : Lexer} (h : ScanInv l) : ScanInv l.trimLeft :=
  scanInv_consumeWhile _ h

theorem scanInv_lexId {l : Lexer} (h : ScanInv l) : ScanInv (lexId l).2 :=
  scanInv_consumeWhile _ h

theorem scanInv_lexNumber {l : Lexer} (h : ScanInv l) : ScanInv (lexNumber l).2 := by
  unfold lexNumber
  dsimp only
  split <;> exact scanInv_consumeWhile _ h

theorem scanInv_lexChar {l : Lexer} (h : ScanInv l) : ScanInv (lexChar l).2 := h

theorem scanInv_lexStringLoopFuel (fuel : Nat) :
    ∀ (acc : List SChar) (l : Lexer), ScanInv l → ScanInv (lexStringLoopFuel fuel acc l).2 := by
  induction fuel with
  | zero => intro acc l h; exact h
  | succ n ih =>
    intro acc l h
    unfold lexStringLoopFuel
    cases hg : l.getChar with
    | none => exact h
    | some ch =>
      dsimp only
      split
      · exact scanInv_chopChar h
      · split
        · split
          · exact scanInv_chopChar h
          · split
            · exact ih _ _ (scanInv_chopChar (scanInv_chopChar h))
            · exact scanInv_chopChar h
            · exact scanInv_chopChar h
        · exact ih _ _ (scanInv_chopChar h)

theorem scanInv_lexString {l : Lexer} (h : ScanInv l) : ScanInv (lexString l).2 :=
  scanInv_lexStringLoopFuel _ _ _ (scanInv_chopChar h)

theorem scanInv_lexOperatorOrSeparator {l : Lexer} (h : ScanInv l) :
    ScanInv (lexOperatorOrSeparator l).2 := by
  unfold lexOperatorOrSeparator
  cases hg : l.getChar with
  | none => exact h
  | some c =>
    dsimp only
    have hc := scanInv_chopChar h
    split
    · exact hc
    · split
      · exact hc
      · split
        · exact hc
        · split
          · exact hc
          · split
            · exact hc
            · split
              · exact hc
              · split
                · split
                  · exact hc
                  · split
                    · exact hc
                    · split
                      · exact hc
                      · split
                        · exact hc
                        · exact hc
                · exact hc

theorem scanInv_getToken {l : Lexer} (h : ScanInv l) : ScanInv (getToken l).2 := by
  unfold getToken
  have h0 := scanInv_trimLeft h
  dsimp only
  split
  · exact h0
  · cases hg : l.trimLeft.getChar with
    | none => exact h0
    | some c =>
      dsimp only
      split
      · exact scanInv_lexId h0
      · split
        · exact scanInv_lexNumber h0
        · split
          · exact scanInv_lexChar h0
          · split
            · exact scanInv_lexString h0
            · exact scanInv_lexOperatorOrSeparator h0

theorem expectToken_state (l : Lexer) (t : Token) :
    (expectToken l t).2 = (getToken l).2 := by
  unfold expectToken
  rcases hg : getToken l with ⟨o, l2⟩
  cases o <;> rfl

theorem scanInv_expectToken {l : Lexer} (t : Token) (h : ScanInv l) :
    ScanInv (expectToken l t).2 := by
  rw [expectToken_state]
  exact scanInv_getToken h

theorem getToken_equal_lookahead (c : SChar) (rest : List SChar) (fp : SString) :
    getToken (Lexer.new ('=' :: c :: rest) fp) =
      (if rustIsWhitespace c || rustIsAlphanumeric c then
        (.ok .Equal, { source := '=' :: c :: rest, filepath := fp, cur := 1, row := 0, bol := 0 })
      else if c == '=' then
        (.ok .EqualEqual, { source := '=' :: c :: rest, filepath := fp, cur := 1, row := 0, bol := 0 })
      else
        (.err (.UnknownToken c),
          { source := '=' :: c :: rest, filepath := fp, cur := 1, row := 0, bol := 0 })) := rfl

theorem getToken_equal_eof (fp : SString) :
    getToken (Lexer.new ['='] fp) =
      (.ok .Equal, { source := ['='], filepath := fp, cur := 1, row := 0, bol := 0 }) := rfl

theorem getToken_fallback_char {c : SChar} (rest : List SChar) (fp : SString)
    (hw : rustIsWhitespace c = false) (ha : rustIsAlphabetic c = false) (hu : c ≠ '_')
    (hd : rustIsAsciiDigit c = false) (hq : c ≠ '\'') (hs : c ≠ '"')
    (h1 : c ≠ '(') (h2 : c ≠ ')') (h3 : c ≠ lbrace) (h4 : c ≠ rbrace)
    (h5 : c ≠ ';') (h6 : c ≠ ',') (h7 : c ≠ '=') :
    getToken (Lexer.new (c :: rest) fp) =
      (.err (.UnknownToken c),
        { source := c :: rest, filepath := fp, cur := 1, row := 0, bol := 0 }) := by
  have hg : (Lexer.new (c :: rest) fp).getChar = some c := rfl
  rw [getToken_head hg hw]
  simp only [ha, Bool.false_or]
  rw [show (c == '_') = false by simp [hu], show (c == '\'') = false by simp [hq],
    show (c == '"') = false by simp [hs]]
  simp only [hd, Bool.false_eq_true, if_false]
  rw [lexOp_fallback hg h1 h2 h3 h4 h5 h6 h7,
    chopChar_not_newline hg (ne_newline_of_not_ws hw)]
  rfl

theorem lexStringLoop_backslash_step {l : Lexer} {c : SChar} (fuel : Nat) (acc : List SChar)
    (hb : l.getChar = some '\\') (hc : l.chopChar.getChar = some c) :
    lexStringLoopFuel (fuel + 1) acc l =
      (match escapeTable c with
       | some r => lexStringLoopFuel fuel (acc ++ [r]) l.chopChar.chopChar
       | none => (.err (.UnknownEscapeSequence (String.mk ['\\', c])), l.chopChar)) := by
  conv_lhs => rw [lexStringLoopFuel]
  rw [hb]
  simp only [isEmpty_false_of_getChar hc, lexEscapeSequence, hc]
  cases escapeTable c <;> simp

theorem getToken_escape_ok {c r : SChar} (fp : SString) (h : escapeTable c = some r) :
    (getToken (Lexer.new ['"', '\\', c, '"'] fp)).1 = .ok (.String (String.mk [r])) := by
  have hc : (c == '\n') = false := by
    cases hcc : c == '\n' with
    | false => rfl
    | true =>
      rw [show c = '\n' from by simpa using hcc] at h
      simp [escapeTable] at h
  have hstep := @lexStringLoop_backslash_step { source := ['"', '\\', c, '"'], filepath := fp, cur := 1, row := 0, bol := 0 } c 2 [] rfl rfl
  rw [h] at hstep
  show (lexStringLoopFuel 3 [] { source := ['"', '\\', c, '"'], filepath := fp, cur := 1, row := 0, bol := 0 }).1 = _
  rw [hstep]
  rw [show ({ source := ['"', '\\', c, '"'], filepath := fp, cur := 1, row := 0, bol := 0 } : Lexer).chopChar = { source := ['"', '\\', c, '"'], filepath := fp, cur := 2, row := 0, bol := 0 } from rfl]
  rw [@chopChar_not_newline { source := ['"', '\\', c, '"'], filepath := fp, cur := 2, row := 0, bol := 0 } c rfl hc]
  rfl

theorem getToken_escape_err {c : SChar} (fp : SString) (h : escapeTable c = none) :
    (getToken (Lexer.new ['"', '\\', c, '"'] fp)).1 =
      .err (.UnknownEscapeSequence (String.mk ['\\', c])) := by
  have hstep := @lexStringLoop_backslash_step { source := ['"', '\\', c, '"'], filepath := fp, cur := 1, row := 0, bol := 0 } c 2 [] rfl rfl
  rw [h] at hstep
  show (lexStringLoopFuel 3 [] { source := ['"', '\\', c, '"'], filepath := fp, cur := 1, row := 0, bol := 0 }).1 = _
  rw [hstep]

/-! ## Claims -/

/-- C1: the claim says no input ever causes a process-ending abort, and
an unclassifiable first character yields a typed UnknownToken failure.
The second part holds, but the first fails on the code: a character
literal reaches the `todo` stub in `lex_char` and aborts the process.
This theorem evaluates the code on the failing input `'a'` (abort) and
on `@` (typed UnknownToken, as the claim demands). -/
theorem c1_char_literal_aborts :
    (getToken (Lexer.new ['\'', 'a', '\''] "file.c")).1 = .abort "lex_char: todo" ∧
    (getToken (Lexer.new ['@'] "file.c")).1 = .err (.UnknownToken '@') := by decide

/-- C4: the claim says a digit run that overflows 32-bit signed range
yields a typed NumericLiteralOverflow error. The code instead calls
`.parse().unwrap()`, so the input `2147483648` aborts the process (and
`LexerError` has no overflow variant at all); in-range runs such as `42`
and `2147483647` parse correctly. -/
theorem c4_overflow_aborts :
    (getToken (Lexer.new ['2', '1', '4', '7', '4', '8', '3', '6', '4', '8'] "file.c")).1 =
      .abort "lex_number: parse unwrap failed" ∧
    (getToken (Lexer.new ['2', '1', '4', '7', '4', '8', '3', '6', '4', '7'] "file.c")).1 =
      .ok (.Int 2147483647) ∧
    (getToken (Lexer.new ['4', '2'] "file.c")).1 = .ok (.Int 42) ∧
    (getToken (Lexer.new ['0', '0', '7'] "file.c")).1 = .ok (.Int 7) := by decide

/-- C2 counterexample: the claim says tokenizing the text of any single
operator/separator yields one token of the matching kind, so `+` would
have to yield `Plus`; the code returns an UnknownToken error instead. -/
theorem c2_counterexample :
    (getToken (Lexer.new ['+'] "file.c")).1 = .err (.UnknownToken '+') ∧
    (getToken (Lexer.new ['+'] "file.c")).1 ≠ .ok .Plus := by decide

set_option maxRecDepth 4000 in
/-- C2 amended: the round trip holds exactly for the six separators and
for `=`; `==` yields EqualEqual but leaves its second `=` unconsumed, so
the next call yields Equal instead of EOF; the text of every other
operator kind yields an UnknownToken error on its first character. -/
theorem c2_roundtrip_amended :
    [tokens2 ['('], tokens2 [')'], tokens2 [lbrace], tokens2 [rbrace],
        tokens2 [','], tokens2 [';'], tokens2 ['=']] =
      [(.ok .OParen, .ok .EOF), (.ok .CParen, .ok .EOF), (.ok .OCurly, .ok .EOF),
        (.ok .CCurly, .ok .EOF), (.ok .Comma, .ok .EOF), (.ok .SemiColon, .ok .EOF),
        (.ok .Equal, .ok .EOF)] ∧
    tokens2 ['=', '='] = (.ok .EqualEqual, .ok .Equal) ∧
    [(getToken (Lexer.new ['+'] "input")).1, (getToken (Lexer.new ['-'] "input")).1,
        (getToken (Lexer.new ['*'] "input")).1, (getToken (Lexer.new ['/'] "input")).1,
        (getToken (Lexer.new ['%'] "input")).1, (getToken (Lexer.new ['&'] "input")).1,
        (getToken (Lexer.new ['|'] "input")).1, (getToken (Lexer.new ['^'] "input")).1,
        (getToken (Lexer.new ['<', '<'] "input")).1, (getToken (Lexer.new ['>', '>'] "input")).1,
        (getToken (Lexer.new ['!', '='] "input")).1, (getToken (Lexer.new ['<'] "input")).1,
        (getToken (Lexer.new ['<', '='] "input")).1, (getToken (Lexer.new ['>'] "input")).1,
        (getToken (Lexer.new ['>', '='] "input")).1, (getToken (Lexer.new ['&', '&'] "input")).1,
        (getToken (Lexer.new ['|', '|'] "input")).1, (getToken (Lexer.new ['+', '+'] "input")).1,
        (getToken (Lexer.new ['-', '-'] "input")).1, (getToken (Lexer.new ['+', '='] "input")).1,
        (getToken (Lexer.new ['-', '='] "input")).1, (getToken (Lexer.new ['*', '='] "input")).1,
        (getToken (Lexer.new ['/', '='] "input")).1, (getToken (Lexer.new ['%', '='] "input")).1,
        (getToken (Lexer.new ['|', '='] "input")).1, (getToken (Lexer.new ['^', '='] "input")).1,
        (getToken (Lexer.new ['<', '<', '='] "input")).1,
        (getToken (Lexer.new ['>', '>', '='] "input")).1,
        (getToken (Lexer.new ['-', '>'] "input")).1] =
      [.err (.UnknownToken '+'), .err (.UnknownToken '-'), .err (.UnknownToken '*'),
        .err (.UnknownToken '/'), .err (.UnknownToken '%'), .err (.UnknownToken '&'),
        .err (.UnknownToken '|'), .err (.UnknownToken '^'), .err (.UnknownToken '<'),
        .err (.UnknownToken '>'), .err (.UnknownToken '!'), .err (.UnknownToken '<'),
        .err (.UnknownToken '<'), .err (.UnknownToken '>'), .err (.UnknownToken '>'),
        .err (.UnknownToken '&'), .err (.UnknownToken '|'), .err (.UnknownToken '+'),
        .err (.UnknownToken '-'), .err (.UnknownToken '+'), .err (.UnknownToken '-'),
        .err (.UnknownToken '*'), .err (.UnknownToken '/'), .err (.UnknownToken '%'),
        .err (.UnknownToken '|'), .err (.UnknownToken '^'), .err (.UnknownToken '<'),
        .err (.UnknownToken '>'), .err (.UnknownToken '-')] := by
  refine ⟨by decide, by decide, by decide⟩

/-- C3 counterexample: the claim says `+=+` tokenizes as PlusEqual then
Plus; the code returns an UnknownToken error for the leading `+` (the
two-character operator table is not live). -/
theorem c3_counterexample :
    (getToken (Lexer.new ['+', '=', '+'] "file.c")).1 = .err (.UnknownToken '+') ∧
    (getToken (Lexer.new ['+', '=', '+'] "file.c")).1 ≠ .ok .PlusEqual := by decide

/-- C5 counterexample: `"\q` has no unescaped closing quote, so the
claim demands UnterminatedStringLiteral, but the code reports the bad
escape first and returns UnknownEscapeSequence. -/
theorem c5_counterexample :
    noUnescapedCloseBefore ['\\', 'q'] = true ∧
    (getToken (Lexer.new ['"', '\\', 'q'] "file.c")).1 =
      .err (.UnknownEscapeSequence (String.mk ['\\', 'q'])) ∧
    (getToken (Lexer.new ['"', '\\', 'q'] "file.c")).1 ≠ .err .UnterminatedStringLiteral := by
  decide

/-- C3 amended: only the `=` head performs one-character lookahead:
`==` yields EqualEqual but the lookahead `=` is not consumed (the state
stops after the first `=`); a whitespace/alphanumeric lookahead (or no
lookahead at all) yields Equal; any other lookahead yields an
UnknownToken error. The heads `+`, `-`, `*`, `/`, `%` perform no folding
at all: the head is consumed and an UnknownToken error is returned, so
`+=+` yields an UnknownToken error rather than PlusEqual then Plus. -/
theorem c3_amended :
    ∀ (c : SChar) (rest : List SChar) (fp : SString),
      ((getToken (Lexer.new ('+' :: rest) fp)).1 = .err (.UnknownToken '+')) ∧
      ((getToken (Lexer.new ('-' :: rest) fp)).1 = .err (.UnknownToken '-')) ∧
      ((getToken (Lexer.new ('*' :: rest) fp)).1 = .err (.UnknownToken '*')) ∧
      ((getToken (Lexer.new ('/' :: rest) fp)).1 = .err (.UnknownToken '/')) ∧
      ((getToken (Lexer.new ('%' :: rest) fp)).1 = .err (.UnknownToken '%')) ∧
      (getToken (Lexer.new ('=' :: '=' :: rest) fp) =
        (.ok .EqualEqual,
          { source := '=' :: '=' :: rest, filepath := fp, cur := 1, row := 0, bol := 0 })) ∧
      (getToken (Lexer.new ['='] fp) =
        (.ok .Equal, { source := ['='], filepath := fp, cur := 1, row := 0, bol := 0 })) ∧
      ((rustIsWhitespace c || rustIsAlphanumeric c) = true →
        getToken (Lexer.new ('=' :: c :: rest) fp) =
          (.ok .Equal,
            { source := '=' :: c :: rest, filepath := fp, cur := 1, row := 0, bol := 0 })) ∧
      (rustIsWhitespace c = false → rustIsAlphanumeric c = false → c ≠ '=' →
        (getToken (Lexer.new ('=' :: c :: rest) fp)).1 = .err (.UnknownToken c)) := by
  intro c rest fp
  refine ⟨?_, ?_, ?_, ?_, ?_, ?_, ?_, ?_, ?_⟩
  · rw [getToken_fallback_char rest fp (by decide) (by decide) (by decide) (by decide)
      (by decide) (by decide) (by decide) (by decide) (by decide) (by decide) (by decide)
      (by decide) (by decide)]
  · rw [getToken_fallback_char rest fp (by decide) (by decide) (by decide) (by decide)
      (by decide) (by decide) (by decide) (by decide) (by decide) (by decide) (by decide)
      (by decide) (by decide)]
  · rw [getToken_fallback_char rest fp (by decide) (by decide) (by decide) (by decide)
      (by decide) (by decide) (by decide) (by decide) (by decide) (by decide) (by decide)
      (by decide) (by decide)]
  · rw [getToken_fallback_char rest fp (by decide) (by decide) (by decide) (by decide)
      (by decide) (by decide) (by decide) (by decide) (by decide) (by decide) (by decide)
      (by decide) (by decide)]
  · rw [getToken_fallback_char rest fp (by decide) (by decide) (by decide) (by decide)
      (by decide) (by decide) (by decide) (by decide) (by decide) (by decide) (by decide)
      (by decide) (by decide)]
  · rw [getToken_equal_lookahead]
    rw [show (rustIsWhitespace '=' || rustIsAlphanumeric '=') = false from by decide]
    simp
  · exact getToken_equal_eof fp
  · intro h
    rw [getToken_equal_lookahead, if_pos h]
  · intro hw ha he
    rw [getToken_equal_lookahead]
    rw [show (rustIsWhitespace c || rustIsAlphanumeric c) = false from by simp [hw, ha]]
    rw [show (c == '=') = false from by simp [he]]
    simp

/-- C3 amended witness: concrete instances discharging each hypothesis:
`= x` yields Equal (alphanumeric lookahead), and `=@` yields the
UnknownToken error naming `@`. -/
theorem c3_amended_witness :
    getToken (Lexer.new ['=', 'x'] "file.c") =
      (.ok .Equal, { source := ['=', 'x'], filepath := "file.c", cur := 1, row := 0, bol := 0 }) ∧
    (getToken (Lexer.new ['=', '@'] "file.c")).1 = .err (.UnknownToken '@') :=
  ⟨((c3_amended 'x' [] "file.c").2.2.2.2.2.2.2.1 (by decide)),
   ((c3_amended '@' [] "file.c").2.2.2.2.2.2.2.2 (by decide) (by decide) (by decide))⟩

/-- C8: after consuming `=`, a remaining lookahead that is neither
whitespace, nor alphanumeric, nor `=` yields an UnknownToken error; a
whitespace or alphanumeric lookahead (or exhausted input) yields Equal;
a `=` lookahead yields EqualEqual. -/
theorem c8_equal_validation :
    ∀ (c : SChar) (rest : List SChar) (fp : SString),
      ((getToken (Lexer.new ['='] fp)).1 = .ok .Equal) ∧
      ((rustIsWhitespace c || rustIsAlphanumeric c) = true →
        (getToken (Lexer.new ('=' :: c :: rest) fp)).1 = .ok .Equal) ∧
      (c = '=' → (getToken (Lexer.new ('=' :: c :: rest) fp)).1 = .ok .EqualEqual) ∧
      (rustIsWhitespace c = false → rustIsAlphanumeric c = false → c ≠ '=' →
        (getToken (Lexer.new ('=' :: c :: rest) fp)).1 = .err (.UnknownToken c)) := by
  intro c rest fp
  refine ⟨?_, ?_, ?_, ?_⟩
  · rw [getToken_equal_eof fp]
  · intro h
    rw [getToken_equal_lookahead, if_pos h]
  · intro h
    subst h
    rw [getToken_equal_lookahead]
    rw [show (rustIsWhitespace '=' || rustIsAlphanumeric '=') = false from by decide]
    simp
  · intro hw ha he
    rw [getToken_equal_lookahead]
    rw [show (rustIsWhitespace c || rustIsAlphanumeric c) = false from by simp [hw, ha]]
    rw [show (c == '=') = false from by simp [he]]
    simp

/-- C8 witness: concrete instances for each case: `= 1` (whitespace
lookahead) yields Equal, `==` yields EqualEqual, `=+` yields the
UnknownToken error naming `+`. -/
theorem c8_equal_validation_witness :
    (getToken (Lexer.new ['=', ' ', '1'] "file.c")).1 = .ok .Equal ∧
    (getToken (Lexer.new ['=', '=', 'x'] "file.c")).1 = .ok .EqualEqual ∧
    (getToken (Lexer.new ['=', '+'] "file.c")).1 = .err (.UnknownToken '+') :=
  ⟨(c8_equal_validation ' ' ['1'] "file.c").2.1 (by decide),
   (c8_equal_validation '=' ['x'] "file.c").2.2.1 rfl,
   (c8_equal_validation '+' [] "file.c").2.2.2 (by decide) (by decide) (by decide)⟩

/-- C10: when operator/separator classification reports UnknownToken,
the state has advanced: in the fallback case the offending character
itself was consumed (cursor 1, pointing past it); in the `=`-lookahead
rejection the `=` was consumed while the rejected lookahead was not
(cursor 1, still pointing at the lookahead), and the reported character
is the lookahead, not the `=`. -/
theorem c10_error_state_advanced :
    ∀ (c : SChar) (rest : List SChar) (fp : SString),
      (rustIsWhitespace c = false → rustIsAlphabetic c = false → c ≠ '_' →
        rustIsAsciiDigit c = false → c ≠ '\'' → c ≠ '"' →
        c ≠ '(' → c ≠ ')' → c ≠ lbrace → c ≠ rbrace → c ≠ ';' → c ≠ ',' → c ≠ '=' →
        getToken (Lexer.new (c :: rest) fp) =
          (.err (.UnknownToken c),
            { source := c :: rest, filepath := fp, cur := 1, row := 0, bol := 0 })) ∧
      (rustIsWhitespace c = false → rustIsAlphanumeric c = false → c ≠ '=' →
        getToken (Lexer.new ('=' :: c :: rest) fp) =
          (.err (.UnknownToken c),
            { source := '=' :: c :: rest, filepath := fp, cur := 1, row := 0, bol := 0 })) := by
  intro c rest fp
  constructor
  · intro hw ha hu hd hq hs h1 h2 h3 h4 h5 h6 h7
    exact getToken_fallback_char rest fp hw ha hu hd hq hs h1 h2 h3 h4 h5 h6 h7
  · intro hw ha he
    rw [getToken_equal_lookahead]
    rw [show (rustIsWhitespace c || rustIsAlphanumeric c) = false from by simp [hw, ha]]
    rw [show (c == '=') = false from by simp [he]]
    simp

/-- C10 witness: `@` alone errors with the `@` consumed; `=@` errors
naming `@` with only the `=` consumed. -/
theorem c10_error_state_advanced_witness :
    getToken (Lexer.new ['@'] "file.c") =
      (.err (.UnknownToken '@'),
        { source := ['@'], filepath := "file.c", cur := 1, row := 0, bol := 0 }) ∧
    getToken (Lexer.new ['=', '@', 'z'] "file.c") =
      (.err (.UnknownToken '@'),
        { source := ['=', '@', 'z'], filepath := "file.c", cur := 1, row := 0, bol := 0 }) :=
  ⟨(c10_error_state_advanced '@' [] "file.c").1 (by decide) (by decide) (by decide) (by decide)
      (by decide) (by decide) (by decide) (by decide) (by decide) (by decide) (by decide)
      (by decide) (by decide),
   (c10_error_state_advanced '@' ['z'] "file.c").2 (by decide) (by decide) (by decide)⟩

/-- C6: escape sequences decode per the fixed twelve-entry table; any
other character after the backslash makes next-token fail with
UnknownEscapeSequence carrying exactly the two-character text; `"a\tb"`
decodes to the three characters a, TAB, b, and `"\q"` fails carrying
`\q`. -/
theorem c6_escape_decoding :
    (escapeTable 'a' = some (Char.ofNat 7) ∧ escapeTable 'b' = some (Char.ofNat 8) ∧
     escapeTable 'e' = some (Char.ofNat 27) ∧ escapeTable 'f' = some (Char.ofNat 12) ∧
     escapeTable 'v' = some (Char.ofNat 11) ∧ escapeTable '?' = some '?' ∧
     escapeTable 'n' = some '\n' ∧ escapeTable 'r' = some '\r' ∧ escapeTable 't' = some '\t' ∧
     escapeTable '\'' = some '\'' ∧ escapeTable '"' = some '"' ∧
     escapeTable '\\' = some '\\') ∧
    (∀ c : SChar, c ≠ 'a' → c ≠ 'b' → c ≠ 'e' → c ≠ 'f' → c ≠ 'v' → c ≠ '?' → c ≠ 'n' →
      c ≠ 'r' → c ≠ 't' → c ≠ '\'' → c ≠ '"' → c ≠ '\\' → escapeTable c = none) ∧
    (∀ (c r : SChar) (fp : SString), escapeTable c = some r →
      (getToken (Lexer.new ['"', '\\', c, '"'] fp)).1 = .ok (.String (String.mk [r]))) ∧
    (∀ (c : SChar) (fp : SString), escapeTable c = none →
      (getToken (Lexer.new ['"', '\\', c, '"'] fp)).1 =
        .err (.UnknownEscapeSequence (String.mk ['\\', c]))) ∧
    ((getToken (Lexer.new ['"', 'a', '\\', 't', 'b', '"'] "file.c")).1 =
      .ok (.String (String.mk ['a', '\t', 'b']))) ∧
    ((getToken (Lexer.new ['"', '\\', 'q', '"'] "file.c")).1 =
      .err (.UnknownEscapeSequence (String.mk ['\\', 'q']))) := by
  refine ⟨by decide, ?_, ?_, ?_, by decide, by decide⟩
  · intro c h1 h2 h3 h4 h5 h6 h7 h8 h9 h10 h11 h12
    simp [escapeTable, h1, h2, h3, h4, h5, h6, h7, h8, h9, h10, h11, h12]
  · intro c r fp h
    exact getToken_escape_ok fp h
  · intro c fp h
    exact getToken_escape_err fp h

/-- C6 witness: the universally quantified parts instantiated: `"\t"`
decodes to a TAB character, and the unknown escapes `\z` and `\q` fail
carrying their two-character text. -/
theorem c6_escape_decoding_witness :
    (getToken (Lexer.new ['"', '\\', 't', '"'] "w.c")).1 = .ok (.String (String.mk ['\t'])) ∧
    (getToken (Lexer.new ['"', '\\', 'z', '"'] "w.c")).1 =
      .err (.UnknownEscapeSequence (String.mk ['\\', 'z'])) ∧
    escapeTable 'z' = none :=
  ⟨c6_escape_decoding.2.2.1 't' '\t' "w.c" (by decide),
   c6_escape_decoding.2.2.2.1 'z' "w.c" (by decide),
   c6_escape_decoding.2.1 'z' (by decide) (by decide) (by decide) (by decide) (by decide)
     (by decide) (by decide) (by decide) (by decide) (by decide) (by decide) (by decide)⟩

/-- C7: expect-token consumes exactly one token through the underlying
scan (its final state is always get-token's final state); on a scanned
token it answers `some` exactly when the discriminants match and `none`
otherwise (payloads ignored, e.g. any two Int tokens match); lexical
errors propagate unchanged; concretely, `(` matched against OParen is
returned while `(` matched against CParen yields `none` with the `(`
consumed either way. -/
theorem c7_expect_token :
    (∀ (l : Lexer) (exp : Token), (expectToken l exp).2 = (getToken l).2) ∧
    (∀ (l : Lexer) (exp t : Token), (getToken l).1 = .ok t →
      (expectToken l exp).1 = .ok (if tokenEq t exp then some t else none)) ∧
    (∀ (l : Lexer) (exp : Token) (e : LexerError), (getToken l).1 = .err e →
      (expectToken l exp).1 = .err e) ∧
    (∀ a b : SInt, tokenEq (.Int a) (.Int b) = true) ∧
    (expectToken (Lexer.new ['('] "file.c") .OParen =
      (.ok (some .OParen),
        { source := ['('], filepath := "file.c", cur := 1, row := 0, bol := 0 })) ∧
    (expectToken (Lexer.new ['('] "file.c") .CParen =
      (.ok none, { source := ['('], filepath := "file.c", cur := 1, row := 0, bol := 0 })) := by
  refine ⟨?_, ?_, ?_, ?_, by decide, by decide⟩
  · intro l exp
    exact expectToken_state l exp
  · intro l exp t h
    unfold expectToken
    rcases hg : getToken l with ⟨o, l2⟩
    rw [hg] at h
    have ho : o = .ok t := h
    subst ho
    rfl
  · intro l exp e h
    unfold expectToken
    rcases hg : getToken l with ⟨o, l2⟩
    rw [hg] at h
    have ho : o = .err e := h
    subst ho
    rfl
  · intro a b
    rfl

/-- C7 witness: the hypothesis-bearing parts instantiated at `(` (ok
case), at `+` (error propagation), and the payload-ignoring comparison
of Int 1 with Int 2. -/
theorem c7_expect_token_witness :
    (expectToken (Lexer.new ['('] "w.c") .CParen).2 = (getToken (Lexer.new ['('] "w.c")).2 ∧
    (expectToken (Lexer.new ['('] "w.c") .CParen).1 =
      .ok (if tokenEq .OParen .CParen then some .OParen else none) ∧
    (expectToken (Lexer.new ['+'] "w.c") .OParen).1 = .err (.UnknownToken '+') ∧
    tokenEq (.Int 1) (.Int 2) = true :=
  ⟨c7_expect_token.1 (Lexer.new ['('] "w.c") .CParen,
   c7_expect_token.2.1 (Lexer.new ['('] "w.c") .CParen .OParen (by decide),
   c7_expect_token.2.2.1 (Lexer.new ['+'] "w.c") .OParen (.UnknownToken '+') (by decide),
   c7_expect_token.2.2.2.1 1 2⟩

theorem noUnescapedCloseBefore_quote (rest : List SChar) :
    noUnescapedCloseBefore ('"' :: rest) = false := by
  rw [noUnescapedCloseBefore.eq_def]
  simp

theorem noUnescapedCloseBefore_backslash (c : SChar) (rest : List SChar) :
    noUnescapedCloseBefore ('\\' :: c :: rest) = noUnescapedCloseBefore rest := by
  rw [noUnescapedCloseBefore.eq_def]
  simp

theorem noUnescapedCloseBefore_other {c : SChar} (rest : List SChar)
    (h1 : (c == '"') = false) (h2 : (c == '\\') = false) :
    noUnescapedCloseBefore (c :: rest) = noUnescapedCloseBefore rest := by
  rw [noUnescapedCloseBefore.eq_def]
  simp [h1, h2]

theorem allEscapesValid_backslash (c : SChar) (rest : List SChar) :
    allEscapesValid ('\\' :: c :: rest) = ((escapeTable c).isSome && allEscapesValid rest) := by
  rw [allEscapesValid.eq_def]
  simp

theorem allEscapesValid_other {c : SChar} (rest : List SChar) (h : (c == '\\') = false) :
    allEscapesValid (c :: rest) = allEscapesValid rest := by
  rw [allEscapesValid.eq_def]
  simp [h]

theorem lexStringLoop_no_close (fuel : Nat) :
    ∀ (acc : List SChar) (l : Lexer),
      noUnescapedCloseBefore (l.source.drop l.cur) = true →
      ((allEscapesValid (l.source.drop l.cur) = true →
          (lexStringLoopFuel fuel acc l).1 = .err .UnterminatedStringLiteral) ∧
        ∀ s : SString, (lexStringLoopFuel fuel acc l).1 ≠ .ok (.String s)) := by
  induction fuel with
  | zero =>
    intro acc l _
    exact ⟨fun _ => rfl, fun s h => by cases h⟩
  | succ n ih =>
    intro acc l hnc
    cases hg : l.getChar with
    | none =>
      refine ⟨fun _ => ?_, fun s => ?_⟩ <;> simp [lexStringLoopFuel, hg]
    | some ch =>
      have hdrop := getChar_some_drop hg
      rw [hdrop] at hnc
      by_cases hq : ch = '"'
      · subst hq
        rw [noUnescapedCloseBefore_quote] at hnc
        simp at hnc
      · by_cases hb : ch = '\\'
        · subst hb
          have hl1src : l.chopChar.source = l.source := chopChar_source l
          have hl1cur : l.chopChar.cur = l.cur + 1 := chopChar_cur hg
          have hg2eq : l.chopChar.getChar = l.source.get? (l.cur + 1) := by
            unfold Lexer.getChar
            rw [hl1src, hl1cur]
          cases hg2 : l.source.get? (l.cur + 1) with
          | none =>
            have hie : l.chopChar.isEmpty = true := by
              apply isEmpty_true_of_none
              rw [hg2eq, hg2]
            refine ⟨fun _ => ?_, fun s => ?_⟩ <;> simp [lexStringLoopFuel, hg, hie]
          | some c2 =>
            have hg2c : l.chopChar.getChar = some c2 := by rw [hg2eq, hg2]
            have hstep := lexStringLoop_backslash_step n acc hg hg2c
            have hdrop2 : l.source.drop (l.cur + 1) = c2 :: l.source.drop (l.cur + 1 + 1) := by
              have hx := getChar_some_drop hg2c
              rw [hl1src, hl1cur] at hx
              exact hx
            rw [hdrop2] at hnc
            have hnc2 : noUnescapedCloseBefore (l.source.drop (l.cur + 1 + 1)) = true := by
              rw [noUnescapedCloseBefore_backslash] at hnc
              exact hnc
            cases hesc : escapeTable c2 with
            | none =>
              simp only [hesc] at hstep
              refine ⟨fun hav => ?_, fun s => ?_⟩
              · rw [hdrop, hdrop2, allEscapesValid_backslash] at hav
                simp [hesc] at hav
              · rw [hstep]
                simp
            | some r =>
              simp only [hesc] at hstep
              have hXsrc : l.chopChar.chopChar.source = l.source := by
                rw [chopChar_source, hl1src]
              have hXcur : l.chopChar.chopChar.cur = l.cur + 1 + 1 := by
                rw [chopChar_cur hg2c, hl1cur]
              have hX : noUnescapedCloseBefore
                  (l.chopChar.chopChar.source.drop l.chopChar.chopChar.cur) = true := by
                rw [hXsrc, hXcur]
                exact hnc2
              refine ⟨fun hav => ?_, fun s => ?_⟩
              · rw [hstep]
                apply (ih (acc ++ [r]) l.chopChar.chopChar hX).1
                rw [hXsrc, hXcur]
                rw [hdrop, hdrop2, allEscapesValid_backslash] at hav
                simpa [hesc] using hav
              · rw [hstep]
                exact (ih (acc ++ [r]) l.chopChar.chopChar hX).2 s
        · have hq' : (ch == '"') = false := by simp [hq]
          have hb' : (ch == '\\') = false := by simp [hb]
          have hstep : lexStringLoopFuel (n + 1) acc l =
              lexStringLoopFuel n (acc ++ [ch]) l.chopChar := by
            conv_lhs => rw [lexStringLoopFuel]
            rw [hg]
            simp [hq', hb']
          have hYsrc : l.chopChar.source = l.source := chopChar_source l
          have hYcur : l.chopChar.cur = l.cur + 1 := chopChar_cur hg
          have hY : noUnescapedCloseBefore (l.chopChar.source.drop l.chopChar.cur) = true := by
            rw [hYsrc, hYcur]
            rw [noUnescapedCloseBefore_other _ hq' hb'] at hnc
            exact hnc
          refine ⟨fun hav => ?_, fun s => ?_⟩
          · rw [hstep]
            apply (ih (acc ++ [ch]) l.chopChar hY).1
            rw [hYsrc, hYcur]
            rw [hdrop, allEscapesValid_other _ hb'] at hav
            exact hav
          · rw [hstep]
            exact (ih (acc ++ [ch]) l.chopChar hY).2 s

/-- C5 amended: for every input whose first non-whitespace character is
`"` and whose remainder contains no unescaped closing quote before end
of input, next-token never returns a String token; and whenever in
addition every backslash in the remainder is at end of input or followed
by a character the escape table accepts, the error returned is exactly
UnterminatedStringLiteral (otherwise the earlier bad escape is reported
as UnknownEscapeSequence instead, as the counterexample `"\q` shows). -/
theorem c5_amended :
    ∀ l : Lexer,
      l.trimLeft.getChar = some '"' →
      noUnescapedCloseBefore (l.trimLeft.source.drop (l.trimLeft.cur + 1)) = true →
      ((∀ s : SString, (getToken l).1 ≠ .ok (.String s)) ∧
        (allEscapesValid (l.trimLeft.source.drop (l.trimLeft.cur + 1)) = true →
          (getToken l).1 = .err .UnterminatedStringLiteral)) := by
  intro l hq hnc
  have h2 : getToken l = getToken l.trimLeft := by
    unfold getToken
    rw [trimLeft_of_head hq (by decide)]
  rw [h2, getToken_head hq (by decide)]
  rw [show (rustIsAlphabetic '"' || ('"' == '_')) = false from by decide]
  rw [show rustIsAsciiDigit '"' = false from by decide]
  rw [show (('"' : Char) == '\'') = false from by decide]
  rw [show (('"' : Char) == '"') = true from by decide]
  simp only [Bool.false_eq_true, if_false, if_true]
  have hcsrc : l.trimLeft.chopChar.source = l.trimLeft.source := chopChar_source _
  have hccur : l.trimLeft.chopChar.cur = l.trimLeft.cur + 1 := chopChar_cur hq
  have key := lexStringLoop_no_close
    (l.trimLeft.chopChar.source.length - l.trimLeft.chopChar.cur) [] l.trimLeft.chopChar
    (by rw [hcsrc, hccur]; exact hnc)
  unfold lexString
  exact ⟨fun s => key.2 s, fun hav => key.1 (by rw [hcsrc, hccur]; exact hav)⟩

/-- C5 amended witness: the spec's own example `"abc` (opening quote,
no closing quote, no escapes) fails with UnterminatedStringLiteral. -/
theorem c5_amended_witness :
    (getToken (Lexer.new ['"', 'a', 'b', 'c'] "w.c")).1 = .err .UnterminatedStringLiteral :=
  (c5_amended (Lexer.new ['"', 'a', 'b', 'c'] "w.c") (by decide) (by decide)).2 (by decide)

/-- C9: the state invariant `0 <= bol <= cur <= length(source)` holds
for a fresh lexer and is preserved by every next-token and expect-token
call; `row` increases by exactly one precisely when the consumed
character is a newline (and a no-input chop leaves the state unchanged);
the reported column is computed as `cur - bol`, which under the
invariant is the exact (never negative) difference. -/
theorem c9_invariants :
    (∀ (s : List SChar) (fp : SString), ScanInv (Lexer.new s fp)) ∧
    (∀ l : Lexer, ScanInv l → ScanInv (getToken l).2) ∧
    (∀ (l : Lexer) (t : Token), ScanInv l → ScanInv (expectToken l t).2) ∧
    (∀ (l : Lexer) (c : SChar), l.getChar = some c →
      l.chopChar.row = (if c = '\n' then l.row + 1 else l.row)) ∧
    (∀ l : Lexer, l.getChar = none → l.chopChar = l) ∧
    (∀ l : Lexer, (getLocation l).col = l.cur - l.bol) ∧
    (∀ l : Lexer, ScanInv l → (getLocation l).col + l.bol = l.cur) := by
  refine ⟨?_, ?_, ?_, ?_, ?_, ?_, ?_⟩
  · intro s fp
    exact ⟨Nat.le_refl 0, Nat.zero_le _⟩
  · intro l h
    exact scanInv_getToken h
  · intro l t h
    exact scanInv_expectToken t h
  · intro l c h
    by_cases hc : c = '\n'
    · subst hc
      rw [chopChar_newline h]
      simp
    · rw [chopChar_not_newline h (by simp [hc])]
      simp [hc]
  · intro l h
    exact chopChar_of_none h
  · intro l
    rfl
  · intro l h
    obtain ⟨h1, h2⟩ := h
    show l.cur - l.bol + l.bol = l.cur
    omega

/-- C9 witness: the hypothesis-bearing parts instantiated on concrete
states: the invariant survives a next-token and an expect-token call on
`a\nb`, chopping a newline bumps `row`, and the column of a state with
`bol = 1 <= cur = 3` is the exact difference 2. -/
theorem c9_invariants_witness :
    ScanInv (getToken (Lexer.new ['a', '\n', 'b'] "w.c")).2 ∧
    ScanInv (expectToken (Lexer.new ['(', ')'] "w.c") .OParen).2 ∧
    (Lexer.new ['\n'] "w.c").chopChar.row =
      (if '\n' = '\n' then (Lexer.new ['\n'] "w.c").row + 1 else (Lexer.new ['\n'] "w.c").row) ∧
    (getLocation { source := ['a', '\n', 'b'], filepath := "w.c", cur := 3, row := 1, bol := 1 }).col + 1 = 3 :=
  ⟨c9_invariants.2.1 _ ⟨Nat.le_refl 0, by decide⟩,
   c9_invariants.2.2.1 _ .OParen ⟨Nat.le_refl 0, by decide⟩,
   c9_invariants.2.2.2.1 (Lexer.new ['\n'] "w.c") '\n' rfl,
   c9_invariants.2.2.2.2.2.2 { source := ['a', '\n', 'b'], filepath := "w.c", cur := 3, row := 1, bol := 1 } ⟨by decide, by decide⟩⟩
